import Mathlib

/-!
Verification of the airline KPI / data-quality pipeline
(`src/kpi_viz.py`, `src/exploration_insights.py`, `src/exploration_dq_checks.py`).

Shallow embedding conventions:
* A pandas float cell is `Option ℚ`; `none` models NaN/NaT ("missing").
* A pandas date cell is `Option ℤ` (a day index; `none` = NaT).  Day-of-week is
  the index mod 7, with the convention that day 0 is a Monday, so `Fin 7`
  value 0 = Monday, 1 = Tuesday, …, 6 = Sunday (the canonical `DOW_ORDER`).
* Column sums skip missing values (pandas `sum` with `skipna=True`; the sum of
  an all-missing column is 0), column means skip missing values and are
  missing on an empty group (pandas `GroupBy.mean`).
* String cells that may be NaN are `Option String`; `astype(str)` turns NaN
  into the literal string "nan" (`pyStr`).
-/

namespace Airline

/-- Sum of a float column with `skipna=True`: missing entries contribute
nothing, and the sum of an all-missing list is `0`. -/
def nanSum (l : List (Option ℚ)) : ℚ := (l.filterMap id).sum

/-- Mean of a list of (non-missing) floats; missing on an empty list,
as with pandas `GroupBy.mean` on an empty group. -/
def nanMean (l : List ℚ) : Option ℚ :=
  if l = [] then none else some (l.sum / (l.length : ℚ))

/-- Python `str(x)` on a possibly-NaN cell: NaN prints as "nan". -/
def pyStr (x : Option String) : String := x.getD "nan"

/-- Python `str.strip()`: drop leading and trailing whitespace. -/
def pyStrip (s : String) : String :=
  ⟨((s.data.dropWhile Char.isWhitespace).reverse.dropWhile Char.isWhitespace).reverse⟩

/-- pandas `.str.replace(' ', '')`: remove every space character. -/
def removeSpaces (s : String) : String := ⟨s.data.filter (fun c => c ≠ ' ')⟩

/-- Python `str.upper()` / pandas `.str.upper()`: upper-case every
character. -/
def pyUpper (s : String) : String := ⟨s.data.map Char.toUpper⟩

/-- Day-of-week of a day index; day 0 is a Monday. -/
def dayName (d : ℤ) : Fin 7 := ⟨(d % 7).toNat % 7, Nat.mod_lt _ (by norm_num)⟩

/-- Canonical weekday order Monday..Sunday (`DOW_ORDER` in the sources). -/
def DOW_ORDER : List (Fin 7) := [0, 1, 2, 3, 4, 5, 6]

/-- One row of the Booking sheet after column cleaning and type coercion
(`kpi_viz.main` lines 99-136, `exploration_insights.run_analysis` lines 59-93).
Origin and destination are already upper-cased/trimmed strings. -/
structure Booking where
  reservationDate : Option ℤ
  cancellationDate : Option ℤ
  flightDate : Option ℤ
  origin : String
  destination : String
  passengercount : Option ℚ
  revTicket : Option ℚ
  revAncPre : Option ℚ
  revAncAt : Option ℚ
  flightnumber : ℕ
  routing : Option String
deriving Repr, DecidableEq

/-- One row of the Flight sheet after cleaning. -/
structure Flight where
  flightnumber : ℕ
  flightdate : Option ℤ
  availablecapacity : Option ℚ
deriving Repr, DecidableEq

/-- `normalize_booking_id` (`exploration_dq_checks.py` lines 22-27,
`exploration_insights.py` lines 14-18, `kpi_viz.py` lines 46-50):
NaN stays NaN; otherwise strip the string, keep only digits, and an empty
result is treated as missing. -/
def normalize_booking_id (x : Option String) : Option String :=
  match x with
  | none => none
  | some s =>
    let t : String := ⟨(pyStrip s).data.filter Char.isDigit⟩
    if t = "" then none else some t

/-- `booking["total_revenue"] = booking[rev_cols].sum(axis=1, skipna=True)`
(`kpi_viz.py` line 133, `exploration_insights.py` line 75,
`exploration_dq_checks.py` line 100). -/
def total_revenue (b : Booking) : ℚ :=
  nanSum [b.revTicket, b.revAncPre, b.revAncAt]

/-- `booking["is_cancelled"] = booking["cancellation date"].notna()`. -/
def is_cancelled (b : Booking) : Bool := b.cancellationDate.isSome

/-- `booking["flight_dow"] = booking["flight date"].dt.day_name()`;
missing on NaT. -/
def flight_dow (b : Booking) : Option (Fin 7) := b.flightDate.map dayName

/-- Grouping key of the leg table:
`booking.groupby(["flightnumber", "flight date", "origin", "destination"], dropna=False)`
(`kpi_viz.py` lines 162-170, `exploration_insights.py` lines 104-108).
`dropna=False`: a missing flight date is kept as a key value. -/
structure LegKey where
  flightnumber : ℕ
  flightDate : Option ℤ
  origin : String
  destination : String
deriving Repr, DecidableEq

def legKey (b : Booking) : LegKey :=
  ⟨b.flightnumber, b.flightDate, b.origin, b.destination⟩

/-- One row of the leg table after the left merge with the Flight sheet. -/
structure Leg where
  key : LegKey
  pax : ℚ
  revenue : ℚ
  cancels : ℕ
  availablecapacity : Option ℚ
deriving Repr, DecidableEq

/-- The distinct group keys of the leg groupby. -/
def legGroups (bookings : List Booking) : List LegKey :=
  (bookings.map legKey).dedup

/-- Aggregation of one leg group: `pax = sum(passengercount)` (skipna),
`revenue = sum(total_revenue)`, `cancels = sum(is_cancelled)`. -/
def legAgg (bookings : List Booking) (k : LegKey) (cap : Option ℚ) : Leg :=
  let grp := bookings.filter (fun b => decide (legKey b = k))
  ⟨k, nanSum (grp.map (fun b => b.passengercount)),
      (grp.map total_revenue).sum,
      (grp.filter (fun b => is_cancelled b)).length,
      cap⟩

/-- Flight rows matching a leg key on `(flightnumber, flightdate)`; pandas
`merge` matches missing keys with missing keys. -/
def capMatches (flights : List Flight) (k : LegKey) : List Flight :=
  flights.filter (fun f =>
    decide (f.flightnumber = k.flightnumber) && decide (f.flightdate = k.flightDate))

/-- The leg table: groupby-aggregate over bookings, then
`leg.merge(flight_view, left_on=["flightnumber","flight date"],
right_on=["flightnumber","flightdate"], how="left")`.  A left merge keeps an
unmatched leg with missing capacity and duplicates a leg once per matching
flight row. -/
def legTable (bookings : List Booking) (flights : List Flight) : List Leg :=
  (legGroups bookings).flatMap (fun k =>
    match capMatches flights k with
    | [] => [legAgg bookings k none]
    | ms => ms.map (fun f => legAgg bookings k f.availablecapacity))

/-- `leg["load_factor"] = np.where(leg["availablecapacity"] > 0,
leg["pax"] / leg["availablecapacity"], np.nan)` (`kpi_viz.py` line 186,
`exploration_insights.py` line 113).  A missing capacity fails the `> 0`
comparison, so the result is missing; `np.where` never raises. -/
def load_factor (l : Leg) : Option ℚ :=
  match l.availablecapacity with
  | some c => if 0 < c then some (l.pax / c) else none
  | none => none

/-- `leg["rev_per_pax"] = np.where(leg["pax"] > 0, leg["revenue"] / leg["pax"],
np.nan)` (`kpi_viz.py` line 187, `exploration_insights.py` line 114). -/
def rev_per_pax (l : Leg) : Option ℚ :=
  if 0 < l.pax then some (l.revenue / l.pax) else none

/-- `leg["dow"] = leg["flight date"].dt.day_name()`. -/
def legDow (l : Leg) : Option (Fin 7) := l.key.flightDate.map dayName

/-- The legs falling in one day-of-week bucket (rows with missing day of week
belong to no bucket). -/
def dowBucket (legs : List Leg) (d : Fin 7) : List Leg :=
  legs.filter (fun l => decide (legDow l = some d))

/-- Value of a weekday-indexed table at a given weekday (first matching row);
missing when the weekday has no row. -/
def tableAt (tbl : List (Fin 7 × Option ℚ)) (d : Fin 7) : Option ℚ :=
  match tbl.find? (fun p => decide (p.1 = d)) with
  | some p => p.2
  | none => none

/-- FWLF of one day-of-week bucket:
`x["pax"].sum() / x["availablecapacity"].sum() if x["availablecapacity"].sum() > 0 else np.nan`
(`kpi_viz.py` line 200). -/
def fwlfBucket (legs : List Leg) : Option ℚ :=
  let capSum := nanSum (legs.map (fun l => l.availablecapacity))
  if 0 < capSum then some ((legs.map (fun l => l.pax)).sum / capSum) else none

/-- `fwlf_dow` (`kpi_viz.py` lines 198-204): groupby over the weekday
categorical, reindexed to `DOW_ORDER` — one row per canonical weekday. -/
def fwlf_dow (bookings : List Booking) (flights : List Flight) :
    List (Fin 7 × Option ℚ) :=
  DOW_ORDER.map (fun d => (d, fwlfBucket (dowBucket (legTable bookings flights) d)))

/-- Realized pax of one `(flightnumber, flight date)` group:
`booking.assign(realized_pax = passengercount.fillna(0) - is_cancelled.astype(int))`
summed over the group (`kpi_viz.py` lines 210-215). -/
def realizedPax (bookings : List Booking) (fn : ℕ) (fd : ℤ) : ℚ :=
  ((bookings.filter (fun b =>
      decide (b.flightnumber = fn) && decide (b.flightDate = some fd))).map
    (fun b => b.passengercount.getD 0 - (if is_cancelled b then 1 else 0))).sum

/-- The `realized_pax` attached to a leg by
`leg.merge(realized, on=["flightnumber", "flight date"], how="left")`
(`kpi_viz.py` line 216).  The `realized` groupby uses the default
`dropna=True`, so a leg with a missing flight date finds no match and keeps a
missing `realized_pax`. -/
def leg_realized (bookings : List Booking) (l : Leg) : Option ℚ :=
  match l.key.flightDate with
  | none => none
  | some fd =>
    if (bookings.filter (fun b =>
        decide (b.flightnumber = l.key.flightnumber) &&
        decide (b.flightDate = some fd))) = [] then none
    else some (realizedPax bookings l.key.flightnumber fd)

/-- `leg2["calf"] = np.where(leg2["availablecapacity"] > 0,
leg2["realized_pax"] / leg2["availablecapacity"], np.nan)`
(`kpi_viz.py` line 217); a missing `realized_pax` propagates to a missing
quotient. -/
def calfLeg (bookings : List Booking) (l : Leg) : Option ℚ :=
  match l.availablecapacity with
  | some c => if 0 < c then (leg_realized bookings l).map (fun r => r / c) else none
  | none => none

/-- `calf_dow = leg2.groupby("dow")["calf"].mean().reindex(DOW_ORDER)`
(`kpi_viz.py` line 218): per weekday, the NaN-skipping mean of the per-leg
`calf` ratios. -/
def calf_dow (bookings : List Booking) (flights : List Flight) :
    List (Fin 7 × Option ℚ) :=
  DOW_ORDER.map (fun d =>
    (d, nanMean ((dowBucket (legTable bookings flights) d).filterMap (calfLeg bookings))))

/-- `onward_rev_map.get(r["dow"], 0.0)` (`kpi_viz.py` lines 229, 236).
`onward_rev_map` is `fco_pmo.groupby("dow")["revenue"].mean().to_dict()` when
`fco_pmo` is non-empty, else the empty dict.  Since `leg["dow"]` is a
categorical over all seven weekdays, a non-empty `fco_pmo` yields a dict with
an entry for every weekday — NaN for a weekday with no FCO→PMO rows — so
`.get` finds the key and returns NaN rather than the 0.0 default.  The 0.0
default is reached only when the dict is empty or the leg's own day of week
is missing (NaN is not a dict key). -/
def onwardRevLookup (fco_pmo : List Leg) (d : Option (Fin 7)) : Option ℚ :=
  if fco_pmo.isEmpty then some 0
  else
    match d with
    | none => some 0
    | some d => nanMean ((dowBucket fco_pmo d).map (fun l => l.revenue))

/-- Per-leg PACS (`kpi_viz.py` lines 231-239), parameterized by the
configuration values `connection_value_pct` and `variable_cost_per_seat_leg`:
the FRA→FCO feeder adds `pct * onward_rev_map.get(dow, 0.0)` to its revenue;
`seats` is the capacity with missing replaced by 0; the result is
`(rev - seats * cost) / seats` when `seats > 0` and missing otherwise. -/
def pacsLeg (pct cost : ℚ) (legs : List Leg) (r : Leg) : Option ℚ :=
  let fco_pmo := legs.filter (fun l =>
    decide (l.key.origin = "FCO") && decide (l.key.destination = "PMO"))
  let rev : Option ℚ :=
    if r.key.origin = "FRA" ∧ r.key.destination = "FCO" then
      (onwardRevLookup fco_pmo (legDow r)).map (fun m => r.revenue + pct * m)
    else some r.revenue
  let seats : ℚ := r.availablecapacity.getD 0
  if 0 < seats then rev.map (fun v => (v - seats * cost) / seats) else none

/-- One row of `cxl_rate_by_dow` (`exploration_insights.py` lines 118-126):
bookings count, cancellation count and cancellation rate of one weekday. -/
def cxlRow (bookings : List Booking) (d : Fin 7) : Fin 7 × ℕ × ℕ × Option ℚ :=
  let books := (bookings.filter (fun b => decide (flight_dow b = some d))).length
  let cxls := (bookings.filter (fun b =>
    is_cancelled b && decide (flight_dow b = some d))).length
  (d, books, cxls, if 0 < books then some ((cxls : ℚ) / (books : ℚ)) else none)

/-- `cxl_rate_by_dow`: both groupbys are reindexed to the canonical weekday
order with missing counts filled with 0, then merged — one row per canonical
weekday, Monday first. -/
def cxl_rate_by_dow (bookings : List Booking) : List (Fin 7 × ℕ × ℕ × Option ℚ) :=
  DOW_ORDER.map (cxlRow bookings)

/-- Grouping key of `lf_seg_dow` (`exploration_insights.py` lines 152-155):
`leg.groupby(["origin", "destination", "dow"])` with the default
`dropna=True`, so rows with a missing day of week are dropped. -/
structure SegDowKey where
  origin : String
  destination : String
  dow : Fin 7
deriving Repr, DecidableEq

def segDowKeyOf (l : Leg) : Option SegDowKey :=
  (legDow l).map (fun d => ⟨l.key.origin, l.key.destination, d⟩)

/-- The long `lf_seg_dow` table: one row per `(origin, destination, dow)`
combination observed in the leg table, holding the NaN-skipping mean of
`load_factor` over that group.  There is no reindex here: combinations absent
from the data produce no row. -/
def lf_seg_dow (bookings : List Booking) (flights : List Flight) :
    List (SegDowKey × Option ℚ) :=
  let legs := legTable bookings flights
  ((legs.filterMap segDowKeyOf).dedup).map (fun k =>
    (k, nanMean ((legs.filter (fun l => decide (segDowKeyOf l = some k))).filterMap load_factor)))

/-- `corr_df = leg[["load_factor", "rev_per_pax"]].dropna()`
(`exploration_insights.py` line 191): the legs where both metrics are
defined, as (load factor, revenue per pax) pairs. -/
def corrPairs (legs : List Leg) : List (ℚ × ℚ) :=
  legs.filterMap (fun l =>
    match load_factor l, rev_per_pax l with
    | some x, some y => some (x, y)
    | _, _ => none)

/-- `n * Σ x² − (Σ x)²`, i.e. `n²` times the variance of the list: the Pearson
correlation of a sample is a number (not NaN) exactly when this is nonzero
for both coordinates. -/
def varNum (xs : List ℚ) : ℚ :=
  (xs.length : ℚ) * (xs.map (fun x => x * x)).sum - (xs.sum) * (xs.sum)

/-- Whether `corr_df.corr().iloc[0,1]` is a number: pandas Pearson correlation
is NaN when either column has zero variance. -/
def pearsonIsNum (ps : List (ℚ × ℚ)) : Bool :=
  decide (varNum (ps.map (fun p => p.1)) ≠ 0) &&
  decide (varNum (ps.map (fun p => p.2)) ≠ 0)

/-- Whether the reported `rev_lf_corr` is a number
(`exploration_insights.py` lines 189-193): initialized to NaN, replaced by the
Pearson correlation only when `corr_df.shape[0] > 2`; that correlation is
itself NaN when either column is constant. -/
def rev_lf_corr_isnum (bookings : List Booking) (flights : List Flight) : Bool :=
  let ps := corrPairs (legTable bookings flights)
  if 2 < ps.length then pearsonIsNum ps else false

/-- The second tolerated separator in the routing consistency check
(`exploration_dq_checks.py` line 126): the three-character sequence
U+00E2 U+2020 U+2019 appearing literally in the source. -/
def SEP2 : String := "â†’"

/-- `booking["routing"].astype(str).str.upper().str.replace(" ", "")`
(`exploration_dq_checks.py` line 124); a missing routing stringifies to
"nan" before upper-casing. -/
def routingUpper (b : Booking) : String :=
  removeSpaces (pyUpper (pyStr b.routing))

/-- `od1` (`exploration_dq_checks.py` line 125). -/
def od1 (b : Booking) : String :=
  removeSpaces (pyUpper b.origin) ++ "-" ++ removeSpaces (pyUpper b.destination)

/-- `od2` (`exploration_dq_checks.py` line 126). -/
def od2 (b : Booking) : String :=
  removeSpaces (pyUpper b.origin) ++ SEP2 ++ removeSpaces (pyUpper b.destination)

/-- `inconsistent = ~(routing_upper.eq(od1) | routing_upper.eq(od2))`
(`exploration_dq_checks.py` line 127). -/
def routing_inconsistent (b : Booking) : Bool :=
  !(routingUpper b == od1 b || routingUpper b == od2 b)

/-- Which columns are present in the input tables handed to `dq_checks`
(`b_` = Booking sheet, `p_` = Passenger sheet, `f_` = Flight sheet). -/
structure Cols where
  b_cancellation_date : Bool
  b_reservation_date : Bool
  b_flight_date : Bool
  b_rev_ticket : Bool
  b_rev_anc_pre : Bool
  b_rev_anc_at : Bool
  b_passengercount : Bool
  b_flightnumber : Bool
  b_origin : Bool
  b_destination : Bool
  b_routing : Bool
  b_bookingid_norm : Bool
  p_bookingid_norm : Bool
  p_booking_channel : Bool
  p_device_used : Bool
  f_flightnumber : Bool
  f_flightdate : Bool
  f_availablecapacity : Bool
deriving Repr, DecidableEq

/-- The unguarded column accesses of `dq_checks`
(`exploration_dq_checks.py` lines 99-140), in source order, as
(column present?, column name) pairs:
line 100 reads the three revenue columns, line 101 `passengercount`,
line 111 the four leg groupby keys, line 114 the three Flight columns,
line 124 `routing`, line 131 `bookingid_norm`, line 136
`cancellation_date` (unguarded there, although lines 74-80 guard it). -/
def unguardedReqs (c : Cols) : List (Bool × String) :=
  [(c.b_rev_ticket, "revenue_per_booking_(ticket)"),
   (c.b_rev_anc_pre, "revenue_per_booking_(ancilliary_pre_check_in)"),
   (c.b_rev_anc_at, "revenue_per_booking_(ancilliary_at_check_in)"),
   (c.b_passengercount, "passengercount"),
   (c.b_flightnumber, "flightnumber"),
   (c.b_flight_date, "flight_date"),
   (c.b_origin, "origin"),
   (c.b_destination, "destination"),
   (c.f_flightnumber, "flightnumber"),
   (c.f_flightdate, "flightdate"),
   (c.f_availablecapacity, "availablecapacity"),
   (c.b_routing, "routing"),
   (c.b_bookingid_norm, "bookingid_norm"),
   (c.b_cancellation_date, "cancellation_date")]

/-- Running a sequence of column accesses: the first access of an absent
column raises a `KeyError` naming it. -/
def runNeeds (rs : List (Bool × String)) : Except String Unit :=
  match rs with
  | [] => Except.ok ()
  | r :: rs => if r.1 then runNeeds rs else Except.error r.2

/-- All columns required by the unguarded checks are present. -/
def unguardedPresent (c : Cols) : Bool :=
  (unguardedReqs c).all (fun r => r.1)

/-- The anomaly-set names `dq_checks` produces when no access raises: the
five guarded checks (`exploration_dq_checks.py` lines 74-97) appear only when
their `issubset`/`in` column guards hold; the remaining ten checks appear
unconditionally.  This key list is also the key set of the summary table
(`main`, line 157-158). -/
def namesProduced (c : Cols) : List String :=
  (if c.b_cancellation_date && c.b_rev_anc_at then
    ["canceled_with_checkin_ancillary"] else []) ++
  (if c.b_cancellation_date && c.b_reservation_date then
    ["cancellation_before_reservation"] else []) ++
  (if c.b_reservation_date && c.b_flight_date then
    ["reservation_after_flight"] else []) ++
  (if c.p_bookingid_norm && c.p_booking_channel then
    ["same_booking_multiple_channels"] else []) ++
  (if c.p_bookingid_norm && c.p_device_used then
    ["same_booking_multiple_devices"] else []) ++
  ["revenue_with_zero_passengers", "negative_revenue_fields",
   "negative_passengers", "pax_exceeds_capacity", "missing_capacity_for_leg",
   "capacity_out_of_range", "routing_inconsistent_with_od",
   "duplicate_legs_within_pnr", "cancellation_with_positive_pax",
   "missing_flight_date"]

/-- Control-flow skeleton of `dq_checks` (`exploration_dq_checks.py` lines
70-142), tracking which anomaly sets are produced.  The guarded checks are
evaluated (and skipped when their columns are absent) before any unguarded
access runs; the dictionary of anomaly sets is returned only if no unguarded
access raises, otherwise the `KeyError` aborts the run. -/
def dq_checks (c : Cols) : Except String (List String) :=
  match runNeeds (unguardedReqs c) with
  | Except.ok _ => Except.ok (namesProduced c)
  | Except.error e => Except.error e

/-- The `pacs_vals` loop (`kpi_viz.py` lines 231-239): per leg-table row, its
day of week together with its PACS value. -/
def pacs_vals (pct cost : ℚ) (bookings : List Booking) (flights : List Flight) :
    List (Option (Fin 7) × Option ℚ) :=
  (legTable bookings flights).map
    (fun r => (legDow r, pacsLeg pct cost (legTable bookings flights) r))

/-- Spec-side formula, for refinement comparison only (claim C1's "not the
mean of per-leg load-factor ratios"): the NaN-skipping mean of the per-leg
load factors of a bucket. -/
def meanLegLoadFactor (legs : List Leg) : Option ℚ :=
  nanMean (legs.filterMap load_factor)

/-- Spec-side formula, for refinement comparison only (claim C2's words):
CALF of a bucket computed "exactly like FWLF", i.e. the capacity-weighted sum
ratio with each leg's pax replaced by (booked pax − cancelled-booking count)
for that leg. -/
def calfClaimBucket (legs : List Leg) : Option ℚ :=
  let capSum := nanSum (legs.map (fun l => l.availablecapacity))
  if 0 < capSum then
    some ((legs.map (fun l => l.pax - (l.cancels : ℚ))).sum / capSum)
  else none

/-! Concrete example records used by witnesses and counterexamples.
Day index 0 is a Monday, 1 a Tuesday. -/

/-- FRA→FCO booking, Monday, 10 pax, ticket revenue 100, flight 1. -/
def bMonA : Booking :=
  ⟨some 0, none, some 0, "FRA", "FCO", some 10, some 100, none, none, 1, none⟩

/-- FRA→FCO booking, Monday, 180 pax, ticket revenue 200, flight 2. -/
def bMonB : Booking :=
  ⟨some 0, none, some 0, "FRA", "FCO", some 180, some 200, none, none, 2, none⟩

def fMonA : Flight := ⟨1, some 0, some 100⟩

def fMonB : Flight := ⟨2, some 0, some 200⟩

/-- Two Monday legs with capacities 100 and 200: the weighted load-factor
ratio is 190/300 = 19/30 while the mean of the two per-leg ratios is 1/2. -/
def exB : List Booking := [bMonA, bMonB]

def exF : List Flight := [fMonA, fMonB]

/-- FRA→FCO feeder booking on a Monday, revenue 5000. -/
def bFeeder : Booking :=
  ⟨some 0, none, some 0, "FRA", "FCO", some 50, some 5000, none, none, 1, none⟩

/-- FCO→PMO connecting booking on a Tuesday, revenue 2000. -/
def bOnward : Booking :=
  ⟨some 0, none, some 1, "FCO", "PMO", some 50, some 2000, none, none, 2, none⟩

def pacsB : List Booking := [bFeeder, bOnward]

def pacsF : List Flight := [⟨1, some 0, some 180⟩, ⟨2, some 1, some 100⟩]

/-- FCO→PMO connecting booking on a Monday (same weekday as the feeder),
revenue 2000. -/
def bOnwardMon : Booking :=
  ⟨some 0, none, some 0, "FCO", "PMO", some 50, some 2000, none, none, 2, none⟩

def pacsBMon : List Booking := [bFeeder, bOnwardMon]

def pacsFMon : List Flight := [⟨1, some 0, some 180⟩, ⟨2, some 0, some 100⟩]

/-- A booking with every optional field missing (used to witness
missing-capacity and missing-revenue behavior). -/
def bBlank : Booking :=
  ⟨none, none, some 0, "AAA", "BBB", none, none, none, none, 9, none⟩

/-- Three Monday legs with identical load factor 1/2 but distinct revenue per
passenger: the Pearson correlation over them is NaN. -/
def corrB : List Booking :=
  [⟨some 0, none, some 0, "FRA", "FCO", some 50, some 100, none, none, 1, none⟩,
   ⟨some 0, none, some 0, "FRA", "FCO", some 50, some 200, none, none, 2, none⟩,
   ⟨some 0, none, some 0, "FRA", "FCO", some 50, some 400, none, none, 3, none⟩]

def corrF : List Flight := [⟨1, some 0, some 100⟩, ⟨2, some 0, some 100⟩, ⟨3, some 0, some 100⟩]

/-- The leg the pipeline derives from `bMonA` joined with `fMonA`. -/
def legExA : Leg := ⟨⟨1, some 0, "FRA", "FCO"⟩, 10, 100, 0, some 100⟩

/-- The leg the pipeline derives from `bMonB` joined with `fMonB`. -/
def legExB : Leg := ⟨⟨2, some 0, "FRA", "FCO"⟩, 180, 200, 0, some 200⟩

/-- The feeder leg the pipeline derives from `bFeeder`. -/
def legFeeder : Leg := ⟨⟨1, some 0, "FRA", "FCO"⟩, 50, 5000, 0, some 180⟩

/-- The Tuesday connecting leg the pipeline derives from `bOnward`. -/
def legOnward : Leg := ⟨⟨2, some 1, "FCO", "PMO"⟩, 50, 2000, 0, some 100⟩

/-- The Monday connecting leg the pipeline derives from `bOnwardMon`. -/
def legOnwardMon : Leg := ⟨⟨2, some 0, "FCO", "PMO"⟩, 50, 2000, 0, some 100⟩

/-- Every column present. -/
def colsAll : Cols :=
  ⟨true, true, true, true, true, true, true, true, true, true, true, true,
   true, true, true, true, true, true⟩

/-- Every column present except `passengercount` on the Booking sheet. -/
def colsNoPax : Cols :=
  ⟨true, true, true, true, true, true, false, true, true, true, true, true,
   true, true, true, true, true, true⟩

/-! Helper lemmas. -/

theorem tableAt_dow_map (g : Fin 7 → Option ℚ) (d : Fin 7) :
    tableAt (DOW_ORDER.map (fun x => (x, g x))) d = g d := by
  fin_cases d <;> rfl

theorem digit_not_ws (c : Char) (h : c.isDigit = true) : c.isWhitespace = false := by
  rcases Bool.eq_false_or_eq_true c.isWhitespace with hw | hw
  · exfalso
    have hcases : c = ' ' ∨ c = '\t' ∨ c = '\r' ∨ c = '\n' := by
      simpa [Char.isWhitespace, or_assoc] using hw
    rcases hcases with rfl | rfl | rfl | rfl <;> exact absurd h (by decide)
  · exact hw

theorem dropWhile_ws_of_digits (l : List Char) (h : ∀ c ∈ l, c.isDigit = true) :
    l.dropWhile Char.isWhitespace = l := by
  cases l with
  | nil => rfl
  | cons a l =>
    have ha := digit_not_ws a (h a (by simp))
    simp [List.dropWhile_cons, ha]

theorem pyStrip_of_digits (s : String) (h : ∀ c ∈ s.data, c.isDigit = true) :
    pyStrip s = s := by
  obtain ⟨l⟩ := s
  show String.mk (((l.dropWhile Char.isWhitespace).reverse.dropWhile
    Char.isWhitespace).reverse) = String.mk l
  rw [dropWhile_ws_of_digits l h,
    dropWhile_ws_of_digits l.reverse (fun c hc => h c (List.mem_reverse.mp hc)),
    List.reverse_reverse]

theorem normalize_digits_eq (s : String) (hne : s ≠ "")
    (h : ∀ c ∈ s.data, c.isDigit = true) :
    normalize_booking_id (some s) = some s := by
  have hfil : s.data.filter Char.isDigit = s.data := List.filter_eq_self.mpr h
  have hmk : String.mk s.data = s := by obtain ⟨l⟩ := s; rfl
  simp only [normalize_booking_id, pyStrip_of_digits s h, hfil, hmk]
  rw [if_neg hne]

theorem normalize_idem (x : Option String) :
    normalize_booking_id (normalize_booking_id x) = normalize_booking_id x := by
  cases x with
  | none => rfl
  | some s =>
    by_cases ht : String.mk ((pyStrip s).data.filter Char.isDigit) = ""
    · simp [normalize_booking_id, ht]
    · have hres : normalize_booking_id (some s) =
          some (String.mk ((pyStrip s).data.filter Char.isDigit)) := by
        simp [normalize_booking_id, ht]
      rw [hres]
      refine normalize_digits_eq _ ht ?_
      intro c hc
      exact List.of_mem_filter (by simpa using hc)

theorem sep_char_mem (x sep y : String) (c : Char) (hc : c ∈ sep.data) :
    c ∈ (x ++ sep ++ y).data := by
  simp only [String.data_append, List.mem_append]
  exact Or.inl (Or.inr hc)

theorem legTable_mem_key (B : List Booking) (F : List Flight) (l : Leg)
    (hl : l ∈ legTable B F) : ∃ b ∈ B, legKey b = l.key := by
  unfold legTable at hl
  rw [List.mem_flatMap] at hl
  obtain ⟨k, hk, hmem⟩ := hl
  have hkey : l.key = k := by
    rcases hcm : capMatches F k with _ | ⟨f, fs⟩ <;> rw [hcm] at hmem
    · simp only [List.mem_singleton] at hmem
      subst hmem; rfl
    · rw [List.mem_map] at hmem
      obtain ⟨f2, _, hf2⟩ := hmem
      subst hf2; rfl
  unfold legGroups at hk
  rw [List.mem_dedup, List.mem_map] at hk
  obtain ⟨b, hb, hbk⟩ := hk
  exact ⟨b, hb, by rw [hbk, hkey]⟩

theorem runNeeds_ok_iff (rs : List (Bool × String)) :
    (runNeeds rs).isOk = true ↔ rs.all (fun r => r.1) = true := by
  induction rs with
  | nil => simp [runNeeds, Except.isOk, Except.toBool]
  | cons r rs ih =>
    cases hr : r.1 with
    | false =>
      simp only [runNeeds, hr, if_false, List.all_cons, Bool.false_and]
      simp [Except.isOk, Except.toBool]
    | true =>
      simp only [runNeeds, hr, if_true, List.all_cons, Bool.true_and]
      exact ih

theorem mem_if_singleton (a b : String) (c : Bool) :
    (a ∈ (if c = true then [b] else [])) ↔ (c = true ∧ a = b) := by
  cases c <;> simp

theorem nanMean_nil : nanMean ([] : List ℚ) = none := rfl

theorem nanMean_cons (x : ℚ) (xs : List ℚ) :
    nanMean (x :: xs) = some ((x :: xs).sum / ((x :: xs).length : ℚ)) := by
  unfold nanMean
  rw [if_neg (List.cons_ne_nil x xs)]

/-! Ground evaluations of the pipeline on the example inputs.  (Rat
normalization is not kernel-reducible, so these are established by `simp` /
`norm_num` instead of `decide`.) -/

theorem legTable_ex_eval : legTable exB exF = [legExA, legExB] := by
  norm_num [legTable, legGroups, legAgg, capMatches, exB, exF, bMonA, bMonB,
    fMonA, fMonB, legKey, nanSum, total_revenue, is_cancelled, List.dedup,
    List.filterMap_cons, List.filterMap_nil, List.sum_cons, List.sum_nil,
    legExA, legExB]

theorem dowBucket_ex_eval : dowBucket (legTable exB exF) 0 = [legExA, legExB] := by
  rw [legTable_ex_eval]
  simp [dowBucket, legDow, dayName, legExA, legExB, List.filter_cons]

theorem fwlf_ex_eval : tableAt (fwlf_dow exB exF) 0 = some (19/30) := by
  unfold fwlf_dow
  rw [tableAt_dow_map (fun d => fwlfBucket (dowBucket (legTable exB exF) d)) 0,
    dowBucket_ex_eval]
  norm_num [fwlfBucket, nanSum, legExA, legExB, List.filterMap_cons]

theorem meanlf_ex_eval :
    meanLegLoadFactor (dowBucket (legTable exB exF) 0) = some (1/2) := by
  rw [dowBucket_ex_eval]
  norm_num [meanLegLoadFactor, nanMean_cons, nanMean_nil, load_factor, legExA,
    legExB, List.filterMap_cons, List.filterMap_nil, List.sum_cons, List.sum_nil]

theorem calf_ex_eval : tableAt (calf_dow exB exF) 0 = some (1/2) := by
  unfold calf_dow
  rw [tableAt_dow_map (fun d =>
    nanMean ((dowBucket (legTable exB exF) d).filterMap (calfLeg exB))) 0,
    dowBucket_ex_eval]
  norm_num [calfLeg, leg_realized, realizedPax, nanMean_cons, nanMean_nil,
    legExA, legExB, exB, bMonA, bMonB, is_cancelled, List.filterMap_cons,
    List.filterMap_nil, List.filter_cons, List.sum_cons, List.sum_nil]

theorem calfclaim_ex_eval :
    calfClaimBucket (dowBucket (legTable exB exF) 0) = some (19/30) := by
  rw [dowBucket_ex_eval]
  norm_num [calfClaimBucket, nanSum, legExA, legExB, List.filterMap_cons]

theorem legAgg_exA_eval : legAgg exB (legKey bMonA) (some 100) = legExA := by
  norm_num [legAgg, exB, bMonA, bMonB, legKey, nanSum, total_revenue,
    is_cancelled, legExA, List.filterMap_cons, List.filterMap_nil,
    List.filter_cons, List.sum_cons, List.sum_nil]

theorem legTable_pacs_eval : legTable pacsB pacsF = [legFeeder, legOnward] := by
  norm_num [legTable, legGroups, legAgg, capMatches, pacsB, pacsF, bFeeder,
    bOnward, legKey, nanSum, total_revenue, is_cancelled, List.dedup,
    List.filterMap_cons, List.filterMap_nil, List.sum_cons, List.sum_nil,
    legFeeder, legOnward]

theorem legTable_pacsMon_eval :
    legTable pacsBMon pacsFMon = [legFeeder, legOnwardMon] := by
  norm_num [legTable, legGroups, legAgg, capMatches, pacsBMon, pacsFMon,
    bFeeder, bOnwardMon, legKey, nanSum, total_revenue, is_cancelled,
    List.dedup, List.filterMap_cons, List.filterMap_nil, List.sum_cons,
    List.sum_nil, legFeeder, legOnwardMon]

theorem legTable_corr_eval : legTable corrB corrF =
    [⟨⟨1, some 0, "FRA", "FCO"⟩, 50, 100, 0, some 100⟩,
     ⟨⟨2, some 0, "FRA", "FCO"⟩, 50, 200, 0, some 100⟩,
     ⟨⟨3, some 0, "FRA", "FCO"⟩, 50, 400, 0, some 100⟩] := by
  norm_num [legTable, legGroups, legAgg, capMatches, corrB, corrF, legKey,
    nanSum, total_revenue, is_cancelled, List.dedup, List.filterMap_cons,
    List.filterMap_nil, List.sum_cons, List.sum_nil]

theorem corrPairs_corr_eval :
    corrPairs (legTable corrB corrF) = [(1/2, 2), (1/2, 4), (1/2, 8)] := by
  rw [legTable_corr_eval]
  norm_num [corrPairs, load_factor, rev_per_pax, List.filterMap_cons,
    List.filterMap_nil]

/-! Claim theorems. -/

/-- C1: for every day-of-week bucket, the scheduled load factor FWLF equals
the sum of passenger counts over the legs in the bucket divided by the sum of
their available capacities (a capacity-weighted ratio), and is undefined when
the summed capacity is not positive; and it is not the mean of the per-leg
load-factor ratios (on the two-leg example the weighted ratio is 19/30 while
the mean of per-leg ratios is 1/2). -/
theorem C1_fwlf_capacity_weighted :
    (∀ (B : List Booking) (F : List Flight) (d : Fin 7),
      tableAt (fwlf_dow B F) d =
        (if 0 < nanSum ((dowBucket (legTable B F) d).map (fun l => l.availablecapacity))
         then some (((dowBucket (legTable B F) d).map (fun l => l.pax)).sum /
           nanSum ((dowBucket (legTable B F) d).map (fun l => l.availablecapacity)))
         else none)) ∧
    (∃ v w : ℚ, tableAt (fwlf_dow exB exF) 0 = some v ∧
      meanLegLoadFactor (dowBucket (legTable exB exF) 0) = some w ∧ v ≠ w) := by
  constructor
  · intro B F d
    unfold fwlf_dow
    rw [tableAt_dow_map (fun d => fwlfBucket (dowBucket (legTable B F) d)) d]
    rfl
  · exact ⟨19/30, 1/2, fwlf_ex_eval, meanlf_ex_eval, by norm_num⟩

/-- C2 counterexample: on the two-leg Monday example the pipeline's CALF at
Monday is the mean of the per-leg realized ratios, 1/2, while the claimed
capacity-weighted sum ratio is 19/30 — the claim as stated is false. -/
theorem C2_counterexample :
    tableAt (calf_dow exB exF) 0 = some (1/2) ∧
    calfClaimBucket (dowBucket (legTable exB exF) 0) = some (19/30) ∧
    tableAt (calf_dow exB exF) 0 ≠
      calfClaimBucket (dowBucket (legTable exB exF) 0) :=
  ⟨calf_ex_eval, calfclaim_ex_eval, by
    rw [calf_ex_eval, calfclaim_ex_eval]
    norm_num⟩

/-- C2 amended: CALF at the day-of-week grain is the NaN-skipping, unweighted
mean of the per-leg ratios realized_pax / capacity over the bucket (not a
capacity-weighted sum ratio); the realized pax attached to a leg with a
non-missing flight date and positive capacity is the sum, over the bookings
sharing its flight number and flight date, of
(passenger count with missing as 0) − (1 if cancelled). -/
theorem C2_amended_calf_mean_of_ratios :
    ∀ (B : List Booking) (F : List Flight),
      (∀ d : Fin 7, tableAt (calf_dow B F) d =
        nanMean ((dowBucket (legTable B F) d).filterMap (calfLeg B))) ∧
      (∀ l ∈ legTable B F, ∀ (fd : ℤ) (c : ℚ),
        l.key.flightDate = some fd → l.availablecapacity = some c → 0 < c →
        calfLeg B l = some (realizedPax B l.key.flightnumber fd / c)) := by
  intro B F
  constructor
  · intro d
    unfold calf_dow
    rw [tableAt_dow_map
      (fun d => nanMean ((dowBucket (legTable B F) d).filterMap (calfLeg B))) d]
  · intro l hl fd c hfd hc hcpos
    obtain ⟨b, hb, hbk⟩ := legTable_mem_key B F l hl
    have hfn : b.flightnumber = l.key.flightnumber := by rw [← hbk]; rfl
    have hbfd : b.flightDate = some fd := by
      have : (legKey b).flightDate = l.key.flightDate := by rw [hbk]
      simpa [legKey, hfd] using this
    have hne : (B.filter (fun x =>
        decide (x.flightnumber = l.key.flightnumber) &&
        decide (x.flightDate = some fd))) ≠ [] := by
      refine List.ne_nil_of_mem (a := b) (List.mem_filter.mpr ⟨hb, ?_⟩)
      simp [hfn, hbfd]
    have hreal : leg_realized B l = some (realizedPax B l.key.flightnumber fd) := by
      unfold leg_realized
      rw [hfd]
      simp only [if_neg hne]
    simp only [calfLeg, hc]
    rw [if_pos hcpos, hreal]
    rfl

/-- C2 amended witness: on the two-leg example, the Monday CALF is the mean
of the per-leg ratios, and the first leg's realized ratio is 10/100. -/
theorem C2_amended_witness :
    tableAt (calf_dow exB exF) 0 =
      nanMean ((dowBucket (legTable exB exF) 0).filterMap (calfLeg exB)) ∧
    calfLeg exB legExA = some (realizedPax exB 1 0 / 100) := by
  constructor
  · exact (C2_amended_calf_mean_of_ratios exB exF).1 0
  · exact (C2_amended_calf_mean_of_ratios exB exF).2
      legExA (by rw [legTable_ex_eval]; simp) 0 100 rfl rfl (by norm_num)

/-- C4: a leg whose joined capacity is missing or not positive has an
undefined load factor (never 0, and the total embedding mirrors that
`np.where` raises nothing), and a leg whose passenger sum is not positive
has an undefined revenue-per-passenger. -/
theorem C4_undefined_on_bad_denominator :
    ∀ (B : List Booking) (F : List Flight), ∀ l ∈ legTable B F,
      ((∀ c : ℚ, l.availablecapacity = some c → c ≤ 0) → load_factor l = none) ∧
      (l.pax ≤ 0 → rev_per_pax l = none) := by
  intro B F l _
  constructor
  · intro h
    cases hcap : l.availablecapacity with
    | none => simp [load_factor, hcap]
    | some c =>
      simp only [load_factor, hcap]
      rw [if_neg (not_lt.mpr (h c hcap))]
  · intro h
    unfold rev_per_pax
    rw [if_neg (not_lt.mpr h)]

/-- C4 witness: the all-missing booking yields a leg with missing capacity
and pax 0, whose load factor and revenue-per-passenger are both undefined. -/
theorem C4_witness :
    load_factor (legAgg [bBlank] (legKey bBlank) none) = none ∧
    rev_per_pax (legAgg [bBlank] (legKey bBlank) none) = none := by
  have ht : legTable [bBlank] [] = [legAgg [bBlank] (legKey bBlank) none] := rfl
  have hm : legAgg [bBlank] (legKey bBlank) none ∈ legTable [bBlank] [] := by
    rw [ht]
    exact List.mem_singleton_self _
  exact ⟨(C4_undefined_on_bad_denominator [bBlank] [] _ hm).1 (fun c hc => nomatch hc),
         (C4_undefined_on_bad_denominator [bBlank] [] _ hm).2
           (by norm_num [legAgg, nanSum, bBlank, List.filterMap_cons, List.filterMap_nil])⟩

/-- C5 counterexample: on an input whose only leg is on a Monday, the long
`lf_seg_dow` table does not contain every canonical weekday — weekdays
without data are silently dropped, so the claim as stated is false. -/
theorem C5_counterexample :
    ¬ ∀ d : Fin 7, ∃ r ∈ lf_seg_dow [bMonA] [], r.1.dow = d := by decide

/-- C5 amended: the reindexed weekday table `cxl_rate_by_dow` always carries
exactly the seven canonical weekdays, Monday first, for any input; but the
segment-by-weekday table `lf_seg_dow` contains a weekday if and only if some
leg with that (non-missing) day of week exists in the data — a weekday with
no data is dropped from it, not represented as an undefined row. -/
theorem C5_amended_weekday_coverage :
    (∀ B : List Booking, (cxl_rate_by_dow B).map (fun r => r.1) = DOW_ORDER) ∧
    (∀ (B : List Booking) (F : List Flight) (d : Fin 7),
      (∃ r ∈ lf_seg_dow B F, r.1.dow = d) ↔
      ∃ l ∈ legTable B F, legDow l = some d) := by
  constructor
  · intro B
    rfl
  · intro B F d
    constructor
    · rintro ⟨r, hr, hdow⟩
      simp only [lf_seg_dow, List.mem_map] at hr
      obtain ⟨k, hk, hfr⟩ := hr
      rw [List.mem_dedup, List.mem_filterMap] at hk
      obtain ⟨l, hl, hkl⟩ := hk
      refine ⟨l, hl, ?_⟩
      rw [← hfr] at hdow
      cases hld : legDow l with
      | none => rw [segDowKeyOf, hld] at hkl; exact absurd hkl (by simp)
      | some d2 =>
        rw [segDowKeyOf, hld] at hkl
        simp only [Option.map_some'] at hkl
        have hk2 : (⟨l.key.origin, l.key.destination, d2⟩ : SegDowKey) = k := by
          injection hkl
        have hd2 : d2 = d := by
          have hkd : k.dow = d := hdow
          rw [← hk2] at hkd
          exact hkd
        rw [hd2]
    · rintro ⟨l, hl, hld⟩
      refine ⟨(⟨l.key.origin, l.key.destination, d⟩,
        nanMean (((legTable B F).filter (fun x =>
          decide (segDowKeyOf x =
            some ⟨l.key.origin, l.key.destination, d⟩))).filterMap load_factor)),
        ?_, rfl⟩
      simp only [lf_seg_dow, List.mem_map]
      refine ⟨⟨l.key.origin, l.key.destination, d⟩, ?_, rfl⟩
      rw [List.mem_dedup, List.mem_filterMap]
      exact ⟨l, hl, by simp [segDowKeyOf, hld]⟩

/-- C6 counterexample: with every column present except `passengercount`,
`dq_checks` aborts with a `KeyError` instead of completing with that check
skipped — the claim as stated is false. -/
theorem C6_counterexample :
    dq_checks colsNoPax = Except.error "passengercount" := rfl

/-- C6 amended: the five presence-guarded checks are skipped and omitted from
the summary when their columns are absent, but the remaining checks access
their columns unguarded, so the run completes if and only if every column
those unguarded accesses require is present; when it completes, the produced
anomaly sets are exactly the guarded checks whose columns are present plus
the ten unguarded checks. -/
theorem C6_amended_guarded_checks_only :
    ∀ c : Cols,
      ((dq_checks c).isOk = true ↔ unguardedPresent c = true) ∧
      (∀ names, dq_checks c = Except.ok names →
        names = namesProduced c ∧
        ("canceled_with_checkin_ancillary" ∈ names ↔
          (c.b_cancellation_date && c.b_rev_anc_at) = true) ∧
        ("cancellation_before_reservation" ∈ names ↔
          (c.b_cancellation_date && c.b_reservation_date) = true) ∧
        ("reservation_after_flight" ∈ names ↔
          (c.b_reservation_date && c.b_flight_date) = true) ∧
        ("same_booking_multiple_channels" ∈ names ↔
          (c.p_bookingid_norm && c.p_booking_channel) = true) ∧
        ("same_booking_multiple_devices" ∈ names ↔
          (c.p_bookingid_norm && c.p_device_used) = true) ∧
        "missing_flight_date" ∈ names) := by
  intro c
  have hok : (dq_checks c).isOk = (runNeeds (unguardedReqs c)).isOk := by
    unfold dq_checks
    cases runNeeds (unguardedReqs c) <;> simp [Except.isOk, Except.toBool]
  constructor
  · rw [hok, runNeeds_ok_iff]
    exact Iff.rfl
  · intro names hok2
    have hnames : names = namesProduced c := by
      unfold dq_checks at hok2
      cases hrn : runNeeds (unguardedReqs c) with
      | ok u =>
        rw [hrn] at hok2
        injection hok2 with h
        exact h.symm
      | error e =>
        rw [hrn] at hok2
        exact Except.noConfusion hok2
    subst hnames
    refine ⟨rfl, ?_, ?_, ?_, ?_, ?_, ?_⟩ <;>
      simp [namesProduced, List.mem_append, mem_if_singleton]

/-- C6 amended witness: with every column present, the run completes and the
summary carries every check, including the guarded ones. -/
theorem C6_amended_witness :
    (dq_checks colsAll).isOk = true ∧
    "missing_flight_date" ∈ namesProduced colsAll ∧
    ("cancellation_before_reservation" ∈ namesProduced colsAll ↔
      (colsAll.b_cancellation_date && colsAll.b_reservation_date) = true) := by
  have h := C6_amended_guarded_checks_only colsAll
  have hrun : dq_checks colsAll = Except.ok (namesProduced colsAll) := rfl
  have h2 := h.2 (namesProduced colsAll) hrun
  exact ⟨h.1.mpr (by decide), h2.2.2.2.2.2.2, h2.2.2.1⟩

/-- C3 (code evaluated at the failing input): with a 15% connection credit
and variable seat cost 25, the FRA→FCO feeder leg (Monday, revenue 5000,
capacity 180) gets an undefined PACS — not the claimed credit-0 value
(5000 − 180·25)/180 — because the FCO→PMO table is non-empty (a Tuesday leg)
but has no Monday row, so the categorical group mean stored in
`onward_rev_map` for Monday is NaN and `.get`'s 0.0 default is never reached.
When the connecting leg is instead on the matching Monday with mean revenue
2000, the feeder's PACS is (5000 + 0.15·2000 − 180·25)/180 = 40/9, as the
claim's scenario states. -/
theorem C3_pacs_feeder_eval :
    pacs_vals (15/100) 25 pacsB pacsF = [(some 0, none), (some 1, some (-5))] ∧
    pacs_vals (15/100) 25 pacsBMon pacsFMon =
      [(some 0, some (40/9)), (some 0, some (-5))] := by
  have hs1 : ("FRA" : String) ≠ "FCO" := by decide
  have hs2 : ("FCO" : String) ≠ "FRA" := by decide
  have hs3 : ("FCO" : String) ≠ "PMO" := by decide
  have hs4 : ("PMO" : String) ≠ "FCO" := by decide
  constructor
  · unfold pacs_vals
    rw [legTable_pacs_eval]
    norm_num [pacsLeg, onwardRevLookup, dowBucket, legDow, dayName, legFeeder,
      legOnward, nanMean_cons, nanMean_nil, List.filter_cons, List.sum_cons,
      List.sum_nil, hs1, hs2, hs3, hs4]
  · unfold pacs_vals
    rw [legTable_pacsMon_eval]
    norm_num [pacsLeg, onwardRevLookup, dowBucket, legDow, dayName, legFeeder,
      legOnwardMon, nanMean_cons, nanMean_nil, List.filter_cons, List.sum_cons,
      List.sum_nil, hs1, hs2, hs3, hs4]

/-- C7 counterexample: three legs with identical load factor 1/2 (zero
variance) but distinct revenue-per-passenger give three defined pairs, yet
the reported correlation is NaN — "numeric iff at least 3 legs" is false. -/
theorem C7_counterexample :
    ¬ (rev_lf_corr_isnum corrB corrF = true ↔
       3 ≤ (corrPairs (legTable corrB corrF)).length) := by
  have h1 : rev_lf_corr_isnum corrB corrF = false := by
    unfold rev_lf_corr_isnum
    rw [corrPairs_corr_eval]
    norm_num [pearsonIsNum, varNum, List.sum_cons, List.sum_nil]
  intro hiff
  have h2 : rev_lf_corr_isnum corrB corrF = true := by
    apply hiff.mpr
    rw [corrPairs_corr_eval]
    norm_num
  rw [h1] at h2
  exact Bool.false_ne_true h2

/-- C7 amended: the reported correlation is numeric if and only if at least
three legs have both metrics defined AND both coordinates have nonzero
variance over those legs (pandas Pearson is NaN on a constant column); and
the pairs entering the correlation are exactly the legs where both load
factor and revenue-per-passenger are defined. -/
theorem C7_amended_corr_gate :
    (∀ (B : List Booking) (F : List Flight),
      rev_lf_corr_isnum B F = true ↔
        (3 ≤ (corrPairs (legTable B F)).length ∧
         varNum ((corrPairs (legTable B F)).map (fun p => p.1)) ≠ 0 ∧
         varNum ((corrPairs (legTable B F)).map (fun p => p.2)) ≠ 0)) ∧
    (∀ legs : List Leg, (corrPairs legs).length =
      (legs.filter (fun l =>
        (load_factor l).isSome && (rev_per_pax l).isSome)).length) := by
  constructor
  · intro B F
    have hz : rev_lf_corr_isnum B F =
        (if 2 < (corrPairs (legTable B F)).length then
          pearsonIsNum (corrPairs (legTable B F)) else false) := rfl
    rw [hz]
    split
    next h =>
      have h3 : 3 ≤ (corrPairs (legTable B F)).length := h
      simp [pearsonIsNum, h3, Bool.and_eq_true, decide_eq_true_iff, and_assoc]
    next h =>
      have h3 : ¬ 3 ≤ (corrPairs (legTable B F)).length := h
      exact iff_of_false (by simp) (fun hh => h3 hh.1)
  · intro legs
    induction legs with
    | nil => rfl
    | cons l ls ih =>
      unfold corrPairs at ih ⊢
      rw [List.filterMap_cons, List.filter_cons]
      cases hlf : load_factor l <;> cases hrp : rev_per_pax l <;>
        simp [hlf, hrp, ih]

/-- C8: a booking's derived total revenue is the sum of its three revenue
components with missing components contributing 0; in particular a booking
with all three components missing has total revenue 0. -/
theorem C8_total_revenue_components :
    (∀ b : Booking, total_revenue b =
      b.revTicket.getD 0 + b.revAncPre.getD 0 + b.revAncAt.getD 0) ∧
    (∀ b : Booking,
      b.revTicket = none → b.revAncPre = none → b.revAncAt = none →
      total_revenue b = 0) := by
  constructor
  · intro b
    obtain ⟨_, _, _, _, _, _, t, p, a, _, _⟩ := b
    unfold total_revenue nanSum
    cases t <;> cases p <;> cases a <;>
      (simp [List.filterMap_cons, List.filterMap_nil, List.sum_cons,
        List.sum_nil]
       try ring)
  · intro b h1 h2 h3
    unfold total_revenue nanSum
    rw [h1, h2, h3]
    rfl

/-- C8 witness: the all-missing booking has total revenue 0, and `bMonA`
(ticket 100, both ancillaries missing) sums to its components. -/
theorem C8_witness :
    total_revenue bBlank = 0 ∧
    total_revenue bMonA =
      bMonA.revTicket.getD 0 + bMonA.revAncPre.getD 0 + bMonA.revAncAt.getD 0 :=
  ⟨C8_total_revenue_components.2 bBlank rfl rfl rfl,
   C8_total_revenue_components.1 bMonA⟩

/-- C9: normalizing an already-normalized booking id — a nonempty string of
digits, the only string form `normalize_booking_id` produces — returns it
unchanged; equivalently, the normalizer is idempotent on every input
(an empty digit string normalizes to missing, and missing is a fixpoint). -/
theorem C9_normalize_idempotent :
    (∀ s : String, s ≠ "" → (∀ c ∈ s.data, c.isDigit = true) →
      normalize_booking_id (some s) = some s) ∧
    (∀ x : Option String,
      normalize_booking_id (normalize_booking_id x) = normalize_booking_id x) :=
  ⟨normalize_digits_eq, normalize_idem⟩

/-- C9 witness: "12345" is already normalized and maps to itself, and
normalizing " C-12345 " twice equals normalizing it once. -/
theorem C9_witness :
    normalize_booking_id (some "12345") = some "12345" ∧
    normalize_booking_id (normalize_booking_id (some " C-12345 ")) =
      normalize_booking_id (some " C-12345 ") :=
  ⟨C9_normalize_idempotent.1 "12345" (by decide) (by decide),
   C9_normalize_idempotent.2 (some " C-12345 ")⟩

/-- C10: a booking whose routing field is missing is always flagged by the
routing-consistency check: the missing value stringifies to "nan", whose
upper-cased form "NAN" can equal neither origin-destination encoding, since
both encodings contain a separator character that "NAN" lacks. -/
theorem C10_missing_routing_flagged :
    ∀ b : Booking, b.routing = none → routing_inconsistent b = true := by
  intro b hb
  have h1 : routingUpper b = "NAN" := by
    unfold routingUpper
    rw [hb]
    rfl
  have h2 : od1 b ≠ "NAN" := by
    intro h
    have hm : '-' ∈ ("NAN" : String).data := by
      rw [← h]
      exact sep_char_mem (removeSpaces (pyUpper b.origin)) "-"
        (removeSpaces (pyUpper b.destination)) '-' (by decide)
    exact absurd hm (by decide)
  have h3 : od2 b ≠ "NAN" := by
    intro h
    have hm : 'â' ∈ ("NAN" : String).data := by
      rw [← h]
      exact sep_char_mem (removeSpaces (pyUpper b.origin)) SEP2
        (removeSpaces (pyUpper b.destination)) 'â' (by decide)
    exact absurd hm (by decide)
  have e1 : (routingUpper b == od1 b) = false := by
    rw [h1, beq_eq_false_iff_ne]
    exact fun hh => h2 hh.symm
  have e2 : (routingUpper b == od2 b) = false := by
    rw [h1, beq_eq_false_iff_ne]
    exact fun hh => h3 hh.symm
  unfold routing_inconsistent
  rw [e1, e2]
  rfl

/-- C10 witness: the example booking with missing routing is flagged as
routing-inconsistent. -/
theorem C10_witness : routing_inconsistent bBlank = true :=
  C10_missing_routing_flagged bBlank rfl

end Airline
